import Mathlib

/-!
Shallow embedding of the forecastio Go client library (`forecastio.go`) and
proofs about its specification.

Modelling conventions:
* Go `int64` / `int` fields become `Int` (Go's `int` is 64-bit on the
  platforms this library targets); overflow-sensitive spots (`strconv.Atoi`)
  clamp explicitly at the `int64` bounds.
* Go `float64` scalar fields of the deserialized report are opaque to every
  operation verified here, so they are modelled as their raw IEEE-754 bit
  pattern (`Float64`), which has decidable equality.
* The `lat`/`lon` arguments of the fetch operations are formatted with
  `fmt.Sprintf("%f", …)`, i.e. as fixed six-fractional-digit decimals; such
  an argument is modelled by its value in micro-units (an `Int` equal to the
  value times 10^6), and `sprintfF` renders it exactly as `%f` renders the
  corresponding float value.
* `time.Time` becomes `GoTime`, a (seconds, nanoseconds) pair; the library
  only ever constructs times via `time.Unix(sec, 0)`.
* The HTTP transport (`http.Get` + `ioutil.ReadAll`) and the JSON decoder
  (`json.Unmarshal`) are external collaborators; they enter the model as
  function parameters.  `json.Unmarshal(body, &forecast)` starts from the
  zero `Forecast` and may leave it partially populated on error, so its
  model returns the (possibly partial) `Forecast` together with an optional
  error.
* The mutex operations and the observable side effects of a fetch are
  recorded in an event trace (`Event`), in the order the Go statements
  execute.
-/

/-- Raw IEEE-754 bit pattern of a Go `float64`; the library never computes
with these values, it only stores and returns them. -/
structure Float64 where
  bits : Nat
deriving DecidableEq, Repr, Inhabited

/-- Model of Go `time.Time`, restricted to what the library constructs:
`time.Unix(sec, nsec)` values, stored as the Unix-seconds / nanoseconds
pair.  The zero value models `time.Time{}`. -/
structure GoTime where
  sec : Int
  nsec : Int
deriving DecidableEq, Repr, Inhabited

/-- `time.Unix(sec, nsec)`.  The library only ever calls it with `nsec = 0`,
for which Go performs no normalization. -/
def timeUnix (sec nsec : Int) : GoTime := ⟨sec, nsec⟩

/-- `baseURL` constant from the source. -/
def baseURL : String := "https://api.forecast.io/forecast"

/-- The Go set `excludesSet` (a `map[string]struct{}`), modelled as the list
of its keys; membership is what the code tests. -/
def excludesSet : List String :=
  ["currently", "minutely", "hourly", "daily", "alerts", "flags"]

/-- The Go set `unitsSet`, modelled as the list of its keys. -/
def unitsSet : List String := ["us", "si", "ca", "uk", "auto"]

/-- `APIConn` without its embedded `sync.RWMutex` (lock usage is recorded in
the event traces instead). -/
structure APIConn where
  apiKey : String
  apiCalls : Int
  units : String
deriving DecidableEq, Repr, Inhabited

/-- `NewConnection`. -/
def NewConnection (key : String) : APIConn :=
  { apiKey := key, apiCalls := 0, units := "auto" }

/-- `(*APIConn).APICalls` (the `RLock`-guarded read). -/
def APIConn.APICalls (a : APIConn) : Int := a.apiCalls

/-- `(*APIConn).Units` (the `RLock`-guarded read; named `Units` in the
source, written method-style here because plain `Units` is taken by the
ambient library). -/
def APIConn.Units (a : APIConn) : String := a.units

/-- The `currently` struct. -/
structure currently where
  TimeUnix : Int
  Time : GoTime
  Summary : String
  Icon : String
  NearestStormDistance : Int
  NearestStormBearing : Int
  PrecipitationIntensity : Float64
  PrecipitationProbability : Float64
  Temperature : Float64
  ApparentTemperature : Float64
  DewPoint : Float64
  Humidity : Float64
  WindSpeed : Float64
  WindBearing : Float64
  Visibility : Float64
  CloudCover : Float64
  Pressure : Float64
  Ozone : Float64
deriving DecidableEq, Repr, Inhabited

/-- The `minuteData` struct. -/
structure minuteData where
  TimeUnix : Int
  Time : GoTime
  PrecipitationIntensity : Float64
  PrecipitationProbability : Float64
deriving DecidableEq, Repr, Inhabited

/-- The `minutely` struct (`Data` is a `[]*minuteData`; pointer indirection
is immaterial to the verified operations, so it is a list of values). -/
structure minutely where
  Summary : String
  Icon : String
  Data : List minuteData
deriving DecidableEq, Repr, Inhabited

/-- The `hourData` struct. -/
structure hourData where
  TimeUnix : Int
  Time : GoTime
  Summary : String
  Icon : String
  PrecipitationIntensity : Float64
  PrecipitationProbability : Float64
  PrecipitationType : String
  Temperature : Float64
  ApparentTemperature : Float64
  DewPoint : Float64
  Humidity : Float64
  WindSpeed : Float64
  WindBearing : Float64
  Visibility : Float64
  CloudCover : Float64
  Pressure : Float64
  Ozone : Float64
deriving DecidableEq, Repr, Inhabited

/-- The `hourly` struct. -/
structure hourly where
  Summary : String
  Icon : String
  Data : List hourData
deriving DecidableEq, Repr, Inhabited

/-- The `dayData` struct. -/
structure dayData where
  TimeUnix : Int
  Time : GoTime
  Summary : String
  Icon : String
  SunriseUnix : Int
  Sunrise : GoTime
  SunsetUnix : Int
  Sunset : GoTime
  MoonPhase : Float64
  PrecipitationIntensity : Float64
  PrecipitationIntensityMax : Float64
  PrecipitationIntensityMaxTimeUnix : Int
  PrecipitationIntensityMaxTime : GoTime
  PrecipitationProbability : Float64
  PrecipitationType : String
  TemperatureMin : Float64
  TemperatureMinTimeUnix : Int
  TemperatureMinTime : GoTime
  TemperatureMax : Float64
  TemperatureMaxTimeUnix : Int
  TemperatureMaxTime : GoTime
  ApparentTemperatureMin : Float64
  ApparentTemperatureMinTimeUnix : Int
  ApparentTemperatureMinTime : GoTime
  ApparentTemperatureMax : Float64
  ApparentTemperatureMaxTimeUnix : Int
  ApparentTemperatureMaxTime : GoTime
  DewPoint : Float64
  Humidity : Float64
  WindSpeed : Float64
  WindBearing : Float64
  Visibility : Float64
  CloudCover : Float64
  Pressure : Float64
  Ozone : Float64
deriving DecidableEq, Repr, Inhabited

/-- The `daily` struct. -/
structure daily where
  Summary : String
  Icon : String
  Data : List dayData
deriving DecidableEq, Repr, Inhabited

/-- The `flags` struct. -/
structure flags where
  Sources : List String
  ISDStations : List String
  MadisStations : List String
  DatapointStations : List String
  DarkskyStations : List String
  Units : String
deriving DecidableEq, Repr, Inhabited

/-- The `alert` struct. -/
structure alert where
  Title : String
  ExpiresUnix : Int
  Expires : GoTime
  Description : String
  URI : String
deriving DecidableEq, Repr, Inhabited

/-- The `Forecast` struct. -/
structure Forecast where
  Latitude : Float64
  Longitude : Float64
  Timezone : String
  TimeOffset : Int
  Currently : currently
  Minutely : minutely
  Hourly : hourly
  Daily : daily
  Alerts : List alert
  Flags : flags
deriving DecidableEq, Repr, Inhabited

/-- `(*Forecast).ParseTimes`: fills every `time.Time` field from its paired
raw Unix field via `time.Unix(raw, 0)`.  The Go method mutates in place
(the slices hold pointers); the functional model returns the updated
`Forecast`. -/
def Forecast.ParseTimes (f : Forecast) : Forecast :=
  { f with
    Currently := { f.Currently with Time := timeUnix f.Currently.TimeUnix 0 }
    Minutely := { f.Minutely with
      Data := f.Minutely.Data.map fun m => { m with Time := timeUnix m.TimeUnix 0 } }
    Hourly := { f.Hourly with
      Data := f.Hourly.Data.map fun h => { h with Time := timeUnix h.TimeUnix 0 } }
    Daily := { f.Daily with
      Data := f.Daily.Data.map fun d =>
        { d with
          Time := timeUnix d.TimeUnix 0
          Sunrise := timeUnix d.SunriseUnix 0
          Sunset := timeUnix d.SunsetUnix 0
          PrecipitationIntensityMaxTime := timeUnix d.PrecipitationIntensityMaxTimeUnix 0
          TemperatureMinTime := timeUnix d.TemperatureMinTimeUnix 0
          TemperatureMaxTime := timeUnix d.TemperatureMaxTimeUnix 0
          ApparentTemperatureMinTime := timeUnix d.ApparentTemperatureMinTimeUnix 0
          ApparentTemperatureMaxTime := timeUnix d.ApparentTemperatureMaxTimeUnix 0 } }
    Alerts := f.Alerts.map fun al => { al with Expires := timeUnix al.ExpiresUnix 0 } }

/-- Observable events of the stateful operations, listed in the order the
Go statements execute.  `readUnits` marks the read of `a.units` while the
request URL is built; `lockEx` / `unlockEx` are `a.Lock()` / `a.Unlock()`
(the latter deferred to function return); `httpGet` carries the requested
URL; the remaining events mark `ioutil.ReadAll`, `response.Body.Close()`,
`json.Unmarshal` and the write to `a.apiCalls`. -/
inductive Event where
  | readUnits : Event
  | lockEx : Event
  | httpGet : String → Event
  | readBody : Event
  | closeBody : Event
  | unmarshalBody : Event
  | setAPICalls : Event
  | unlockEx : Event
  | writeUnits : Event
deriving DecidableEq, Repr

/-- `(*APIConn).SetUnits`, together with its mutex trace.  The Go method
takes the exclusive lock for its whole duration (`Lock` / `defer Unlock`).
Returns the updated connection, the returned error, and the event trace. -/
def SetUnits (a : APIConn) (units : String) : APIConn × Option String × List Event :=
  if unitsSet.contains units then
    ({ a with units := units }, none, [.lockEx, .writeUnits, .unlockEx])
  else
    (a, some "Invalid units requested", [.lockEx, .unlockEx])

/-- The exclude-validation loop of `(*APIConn).Forecast`:
`if ex == "" { continue }; if _, ok := excludesSet[ex]; !ok { return … }`.
`true` means the loop runs to completion without returning an error. -/
def forecastExcludeCheck : List String → Bool
  | [] => true
  | ex :: rest =>
    if ex = "" then forecastExcludeCheck rest
    else if excludesSet.contains ex then forecastExcludeCheck rest
    else false

/-- The exclude-validation loop of `(*APIConn).ForecastAtTime`: no
empty-string skip, every entry must be in `excludesSet`. -/
def forecastAtTimeExcludeCheck : List String → Bool
  | [] => true
  | ex :: rest =>
    if excludesSet.contains ex then forecastAtTimeExcludeCheck rest
    else false

/-- Left-pad a natural number's decimal representation with zeros to six
digits (the fractional part of `%f`). -/
def padSixDigits (n : Nat) : String :=
  let s := toString n
  String.mk (List.replicate (6 - s.length) '0') ++ s

/-- `fmt.Sprintf("%f", x)` for a `float64` argument whose value is
`micro / 10^6`: the default `%f` verb prints the value with exactly six
digits after the decimal point. -/
def sprintfF (micro : Int) : String :=
  (if micro < 0 then "-" else "") ++
    toString (micro.natAbs / 1000000) ++ "." ++ padSixDigits (micro.natAbs % 1000000)

/-- Purely syntactic part of `strconv.Atoi`: an optional `+`/`-` sign
followed by at least one decimal digit, and nothing else; returns the
(unbounded) signed value, or `none` on a syntax error. -/
def atoiParse (s : String) : Option Int :=
  match s.toList with
  | [] => none
  | c :: rest =>
    let (neg, digits) :=
      if c = '+' then (false, rest)
      else if c = '-' then (true, rest)
      else (false, c :: rest)
    if digits.isEmpty then none
    else if digits.all (fun d => '0' ≤ d && d ≤ '9') then
      let v : Nat := digits.foldl (fun acc d => acc * 10 + (d.toNat - '0'.toNat)) 0
      some (if neg then -(v : Int) else (v : Int))
    else none

/-- `math.MaxInt64`, i.e. `2^63 - 1`. -/
def maxInt64 : Int := 9223372036854775807

/-- `math.MinInt64`, i.e. `-2^63`. -/
def minInt64 : Int := -9223372036854775808

/-- `strconv.Atoi(s)` on a 64-bit platform: value plus success flag.  A
syntax error yields `(0, false)`; an out-of-range value yields the clamped
bound with `false` (Go's `ErrRange` case). -/
def goAtoi (s : String) : Int × Bool :=
  match atoiParse s with
  | none => (0, false)
  | some v =>
    if v > maxInt64 then (maxInt64, false)
    else if v < minInt64 then (minInt64, false)
    else (v, true)

deriving instance DecidableEq for Except

/-- What the fetch operations observe of a successful `http.Get`: the
outcome of `ioutil.ReadAll(response.Body)` and the value of
`response.Header.Get("X-Forecast-API-Calls")` (the empty string when the
header is absent). -/
structure HTTPResponse where
  bodyResult : Except String String
  apiCallsHeader : String
deriving DecidableEq, Repr, Inhabited

/-- Result of a fetch operation: the connection state on return, the
returned `*Forecast` (`none` for Go `nil`), the returned error, and the
event trace. -/
structure FetchResult where
  conn : APIConn
  forecast : Option Forecast
  err : Option String
  trace : List Event
deriving DecidableEq, Repr

/-- The URLs of the `httpGet` events of a trace, in order. -/
def requestedURLs (tr : List Event) : List String :=
  tr.filterMap fun e =>
    match e with
    | .httpGet u => some u
    | _ => none

/-- The `query` string built by `(*APIConn).Forecast` (source line 269:
`fmt.Sprintf("%s/%s/%f,%f?units=%s&exclude=%s", …)` plus the conditional
`&extend=hourly` suffix). -/
def forecastQuery (a : APIConn) (latMicro lonMicro : Int) (excludes : List String)
    (extendHourly : Bool) : String :=
  let query := baseURL ++ "/" ++ a.apiKey ++ "/" ++ sprintfF latMicro ++ "," ++
    sprintfF lonMicro ++ "?units=" ++ a.units ++ "&exclude=" ++
    String.intercalate "," excludes
  if extendHourly then query ++ "&extend=hourly" else query

/-- `(*APIConn).Forecast`, named `ForecastFetch` because the struct
`Forecast` already carries the bare name.  `httpGet` stands for the
`net/http` collaborator (keyed by the requested URL), `jsonUnmarshal` for
`encoding/json`; both are parameters of the model. -/
def ForecastFetch (a : APIConn) (latMicro lonMicro : Int) (excludes : List String)
    (extendHourly : Bool) (httpGet : String → Except String HTTPResponse)
    (jsonUnmarshal : String → Forecast × Option String) : FetchResult :=
  if forecastExcludeCheck excludes then
    let query := forecastQuery a latMicro lonMicro excludes extendHourly
    match httpGet query with
    | .error e =>
      { conn := a, forecast := none, err := some e
        trace := [.readUnits, .lockEx, .httpGet query, .unlockEx] }
    | .ok response =>
      match response.bodyResult with
      | .error e =>
        { conn := a, forecast := none, err := some e
          trace := [.readUnits, .lockEx, .httpGet query, .readBody, .unlockEx] }
      | .ok body =>
        let parsed := jsonUnmarshal body
        { conn := { a with apiCalls := (goAtoi response.apiCallsHeader).1 }
          forecast := some parsed.1
          err := parsed.2
          trace := [.readUnits, .lockEx, .httpGet query, .readBody, .closeBody,
            .unmarshalBody, .setAPICalls, .unlockEx] }
  else
    { conn := a, forecast := none, err := some "Invalid exclude requested", trace := [] }

/-- The `date interface{}` argument of `ForecastAtTime`, as the tagged
variant of the dynamic types the switch inspects. -/
inductive DateArg where
  | timeTime : GoTime → DateArg
  | goInt : Int → DateArg
  | goInt64 : Int → DateArg
  | goString : String → DateArg
  | otherType : DateArg
deriving DecidableEq, Repr

/-- The `query` string built by the type switch of
`(*APIConn).ForecastAtTime`.  The `case int, int64` branch executes
`date.(int64)`, a single-valued type assertion that panics when the dynamic
type is `int`; the panic is modelled as `Except.error`.  A dynamic type
matching no case leaves `query` at its zero value `""`. -/
def forecastAtTimeQuery (a : APIConn) (latMicro lonMicro : Int) (date : DateArg)
    (excludes : List String) : Except String String :=
  let tail (t : String) : String := baseURL ++ "/" ++ a.apiKey ++ "/" ++
    sprintfF latMicro ++ "," ++ sprintfF lonMicro ++ "," ++ t ++ "?units=" ++
    a.units ++ "&exclude=" ++ String.intercalate "," excludes
  match date with
  | .timeTime t => .ok (tail (toString t.sec))
  | .goInt _ => .error "panic: interface conversion: interface is int, not int64"
  | .goInt64 n => .ok (tail (toString n))
  | .goString s => .ok (tail s)
  | .otherType => .ok ""

/-- `(*APIConn).ForecastAtTime`.  Returns `Except.error` for the panic
raised by `date.(int64)` when `date`'s dynamic type is `int`. -/
def ForecastAtTimeFetch (a : APIConn) (latMicro lonMicro : Int) (date : DateArg)
    (excludes : List String) (httpGet : String → Except String HTTPResponse)
    (jsonUnmarshal : String → Forecast × Option String) : Except String FetchResult :=
  if forecastAtTimeExcludeCheck excludes then
    match forecastAtTimeQuery a latMicro lonMicro date excludes with
    | .error p => .error p
    | .ok query =>
      match httpGet query with
      | .error e =>
        .ok { conn := a, forecast := none, err := some e
              trace := [.readUnits, .lockEx, .httpGet query, .unlockEx] }
      | .ok response =>
        match response.bodyResult with
        | .error e =>
          .ok { conn := a, forecast := none, err := some e
                trace := [.readUnits, .lockEx, .httpGet query, .readBody, .unlockEx] }
        | .ok body =>
          let parsed := jsonUnmarshal body
          .ok { conn := { a with apiCalls := (goAtoi response.apiCallsHeader).1 }
                forecast := some parsed.1
                err := parsed.2
                trace := [.readUnits, .lockEx, .httpGet query, .readBody, .closeBody,
                  .unmarshalBody, .setAPICalls, .unlockEx] }
  else
    .ok { conn := a, forecast := none, err := some "Invalid exclude requested", trace := [] }

/-- Bridge between the Go map-membership test (`contains`) and list
membership. -/
theorem string_contains_iff_mem (l : List String) (x : String) :
    l.contains x = true ↔ x ∈ l := by
  simp [List.contains, List.elem_iff]

/-- Claim C5: for every string in `{us, si, ca, uk, auto}`, `SetUnits`
succeeds (returns nil error) and a subsequent `Units()` returns that
string; for every other string, `SetUnits` fails with the invalid-units
error and `Units()` still returns the previously stored value. -/
theorem C5_set_units_valid_iff (a : APIConn) (u : String) :
    ((SetUnits a u).2.1 = none ↔ u ∈ unitsSet) ∧
    ((SetUnits a u).1.Units = if u ∈ unitsSet then u else a.Units) ∧
    (u ∉ unitsSet → (SetUnits a u).2.1 = some "Invalid units requested") := by
  by_cases h : u ∈ unitsSet
  · have hc : unitsSet.contains u = true := (string_contains_iff_mem _ _).mpr h
    simp [SetUnits, hc, h, APIConn.Units]
  · have hc : unitsSet.contains u = false := by
      cases hcc : unitsSet.contains u with
      | false => rfl
      | true => exact absurd ((string_contains_iff_mem _ _).mp hcc) h
    simp [SetUnits, hc, h, APIConn.Units]

/-- The `Forecast` exclude loop fails exactly on a non-empty entry outside
`excludesSet`. -/
theorem forecastExcludeCheck_false_iff (l : List String) :
    forecastExcludeCheck l = false ↔ ∃ ex ∈ l, ex ≠ "" ∧ ex ∉ excludesSet := by
  induction l with
  | nil => simp [forecastExcludeCheck]
  | cons x rest ih =>
    by_cases hx : x = ""
    · subst hx
      simp [forecastExcludeCheck, ih]
    · by_cases hmem : x ∈ excludesSet
      · have hc : excludesSet.contains x = true := (string_contains_iff_mem _ _).mpr hmem
        simp [forecastExcludeCheck, hx, hc, ih, hmem]
      · have hc : excludesSet.contains x = false := by
          cases hcc : excludesSet.contains x with
          | false => rfl
          | true => exact absurd ((string_contains_iff_mem _ _).mp hcc) hmem
        simp [forecastExcludeCheck, hx, hc, hmem]

/-- The `ForecastAtTime` exclude loop fails exactly on any entry outside
`excludesSet` (the empty string included). -/
theorem forecastAtTimeExcludeCheck_false_iff (l : List String) :
    forecastAtTimeExcludeCheck l = false ↔ ∃ ex ∈ l, ex ∉ excludesSet := by
  induction l with
  | nil => simp [forecastAtTimeExcludeCheck]
  | cons x rest ih =>
    by_cases hmem : x ∈ excludesSet
    · have hc : excludesSet.contains x = true := (string_contains_iff_mem _ _).mpr hmem
      simp [forecastAtTimeExcludeCheck, hc, ih, hmem]
    · have hc : excludesSet.contains x = false := by
        cases hcc : excludesSet.contains x with
        | false => rfl
        | true => exact absurd ((string_contains_iff_mem _ _).mp hcc) hmem
      simp [forecastAtTimeExcludeCheck, hc, hmem]

/-- Claim C4: `Forecast` silently skips empty-string entries of the exclude
list and fails with the "invalid exclude" error, making no network call
(empty trace, state unchanged, nil result), exactly when the list contains
a non-empty entry outside `{currently, minutely, hourly, daily, alerts,
flags}`; `ForecastAtTime` fails that way exactly when the list contains any
entry outside that set, the empty string included. -/
theorem C4_exclude_list_validation (a : APIConn) (latMicro lonMicro : Int)
    (excludes : List String) (extendHourly : Bool) (date : DateArg)
    (hg : String → Except String HTTPResponse)
    (ju : String → Forecast × Option String) :
    (ForecastFetch a latMicro lonMicro excludes extendHourly hg ju =
        { conn := a, forecast := none, err := some "Invalid exclude requested",
          trace := [] } ↔
      ∃ ex ∈ excludes, ex ≠ "" ∧ ex ∉ excludesSet) ∧
    (ForecastAtTimeFetch a latMicro lonMicro date excludes hg ju =
        .ok { conn := a, forecast := none, err := some "Invalid exclude requested",
              trace := [] } ↔
      ∃ ex ∈ excludes, ex ∉ excludesSet) := by
  constructor
  · rw [← forecastExcludeCheck_false_iff]
    cases hchk : forecastExcludeCheck excludes with
    | false => simp [ForecastFetch, hchk]
    | true =>
      simp only [ForecastFetch, hchk]
      cases hhg : hg (forecastQuery a latMicro lonMicro excludes extendHourly) with
      | error e => simp [hhg]
      | ok r =>
        cases hbody : r.bodyResult with
        | error e => simp [hhg, hbody]
        | ok body => simp [hhg, hbody]
  · rw [← forecastAtTimeExcludeCheck_false_iff]
    cases hchk : forecastAtTimeExcludeCheck excludes with
    | false => simp [ForecastAtTimeFetch, hchk]
    | true =>
      simp only [ForecastAtTimeFetch, hchk]
      cases hq : forecastAtTimeQuery a latMicro lonMicro date excludes with
      | error p => simp [hq]
      | ok query =>
        cases hhg : hg query with
        | error e => simp [hq, hhg]
        | ok r =>
          cases hbody : r.bodyResult with
          | error e => simp [hq, hhg, hbody]
          | ok body => simp [hq, hhg, hbody]

/-- Claim C7: `ParseTimes` sets each structured time field — the current
conditions' time; every minute, hour and day sample's times, a day's
sunrise, sunset, precipitation-intensity-max, min/max and apparent min/max
temperature times; every alert's expiry — to exactly `time.Unix(raw, 0)`
of its own paired raw Unix field (zero nanoseconds), and modifies no other
field of the `Forecast`, the raw integer fields included (the `with`
updates below change nothing but the listed structured-time fields). -/
theorem C7_parse_times_exact_fields (f : Forecast) :
    f.ParseTimes.Latitude = f.Latitude ∧
    f.ParseTimes.Longitude = f.Longitude ∧
    f.ParseTimes.Timezone = f.Timezone ∧
    f.ParseTimes.TimeOffset = f.TimeOffset ∧
    f.ParseTimes.Flags = f.Flags ∧
    f.ParseTimes.Currently =
      { f.Currently with Time := timeUnix f.Currently.TimeUnix 0 } ∧
    f.ParseTimes.Minutely.Summary = f.Minutely.Summary ∧
    f.ParseTimes.Minutely.Icon = f.Minutely.Icon ∧
    f.ParseTimes.Minutely.Data =
      f.Minutely.Data.map (fun m => { m with Time := timeUnix m.TimeUnix 0 }) ∧
    f.ParseTimes.Hourly.Summary = f.Hourly.Summary ∧
    f.ParseTimes.Hourly.Icon = f.Hourly.Icon ∧
    f.ParseTimes.Hourly.Data =
      f.Hourly.Data.map (fun h => { h with Time := timeUnix h.TimeUnix 0 }) ∧
    f.ParseTimes.Daily.Summary = f.Daily.Summary ∧
    f.ParseTimes.Daily.Icon = f.Daily.Icon ∧
    f.ParseTimes.Daily.Data =
      f.Daily.Data.map (fun d =>
        { d with
          Time := timeUnix d.TimeUnix 0
          Sunrise := timeUnix d.SunriseUnix 0
          Sunset := timeUnix d.SunsetUnix 0
          PrecipitationIntensityMaxTime := timeUnix d.PrecipitationIntensityMaxTimeUnix 0
          TemperatureMinTime := timeUnix d.TemperatureMinTimeUnix 0
          TemperatureMaxTime := timeUnix d.TemperatureMaxTimeUnix 0
          ApparentTemperatureMinTime := timeUnix d.ApparentTemperatureMinTimeUnix 0
          ApparentTemperatureMaxTime := timeUnix d.ApparentTemperatureMaxTimeUnix 0 }) ∧
    f.ParseTimes.Alerts =
      f.Alerts.map (fun al => { al with Expires := timeUnix al.ExpiresUnix 0 }) :=
  ⟨rfl, rfl, rfl, rfl, rfl, rfl, rfl, rfl, rfl, rfl, rfl, rfl, rfl, rfl, rfl, rfl⟩

/-- Claim C8: `ParseTimes` is idempotent — applying it twice yields the
same `Forecast` as applying it once, because each structured time is
recomputed from the raw integer fields, which `ParseTimes` never changes. -/
theorem C8_parse_times_idempotent (f : Forecast) :
    f.ParseTimes.ParseTimes = f.ParseTimes := by
  simp only [Forecast.ParseTimes, List.map_map]
  rfl

/-- Claim C3: whenever the network call succeeds but the body fails to
parse as the `Report` shape (the unmarshal collaborator reports an error),
both fetch operations return the non-nil — possibly partially populated —
`Forecast` produced by the parse, together with the non-nil parse error. -/
theorem C3_parse_error_partial_result (a : APIConn) (latMicro lonMicro : Int)
    (excludes : List String) (extendHourly : Bool) (date : DateArg) (q : String)
    (hg : String → Except String HTTPResponse)
    (ju : String → Forecast × Option String)
    (resp : HTTPResponse) (body e : String)
    (hbody : resp.bodyResult = .ok body)
    (hparse : (ju body).2 = some e) :
    (forecastExcludeCheck excludes = true →
      hg (forecastQuery a latMicro lonMicro excludes extendHourly) = .ok resp →
      (ForecastFetch a latMicro lonMicro excludes extendHourly hg ju).forecast =
          some (ju body).1 ∧
      (ForecastFetch a latMicro lonMicro excludes extendHourly hg ju).err = some e) ∧
    (forecastAtTimeExcludeCheck excludes = true →
      forecastAtTimeQuery a latMicro lonMicro date excludes = .ok q →
      hg q = .ok resp →
      ∃ r, ForecastAtTimeFetch a latMicro lonMicro date excludes hg ju = .ok r ∧
        r.forecast = some (ju body).1 ∧ r.err = some e) := by
  constructor
  · intro hchk hhg
    simp [ForecastFetch, hchk, hhg, hbody, hparse]
  · intro hchk hq hhg
    simp [ForecastAtTimeFetch, hchk, hq, hhg, hbody, hparse]

/-- Claim C6: when the underlying HTTP GET fails, both fetch operations
return a nil `Forecast` together with the transport error unchanged,
perform no JSON parsing (no `unmarshalBody` event in the trace), and
leave the connection — its call counter included — unchanged. -/
theorem C6_transport_failure (a : APIConn) (latMicro lonMicro : Int)
    (excludes : List String) (extendHourly : Bool) (date : DateArg) (q e : String)
    (hg : String → Except String HTTPResponse)
    (ju : String → Forecast × Option String) :
    (forecastExcludeCheck excludes = true →
      hg (forecastQuery a latMicro lonMicro excludes extendHourly) = .error e →
      (ForecastFetch a latMicro lonMicro excludes extendHourly hg ju).forecast = none ∧
      (ForecastFetch a latMicro lonMicro excludes extendHourly hg ju).err = some e ∧
      (ForecastFetch a latMicro lonMicro excludes extendHourly hg ju).conn = a ∧
      Event.unmarshalBody ∉
        (ForecastFetch a latMicro lonMicro excludes extendHourly hg ju).trace) ∧
    (forecastAtTimeExcludeCheck excludes = true →
      forecastAtTimeQuery a latMicro lonMicro date excludes = .ok q →
      hg q = .error e →
      ∃ r, ForecastAtTimeFetch a latMicro lonMicro date excludes hg ju = .ok r ∧
        r.forecast = none ∧ r.err = some e ∧ r.conn = a ∧
        Event.unmarshalBody ∉ r.trace) := by
  constructor
  · intro hchk hhg
    simp [ForecastFetch, hchk, hhg, requestedURLs]
  · intro hchk hq hhg
    simp [ForecastAtTimeFetch, hchk, hq, hhg]

/-- Claim C9: for every `Forecast` call that passes exclude validation, the
single requested URL is exactly the base endpoint, `/apiKey/lat,lon` with
the coordinates rendered by `%f`, a `units` parameter equal to the
connection's configured unit mode, an `exclude` parameter equal to the
comma-joined exclude list, and the `&extend=hourly` suffix exactly when
`extendHourly` is set. -/
theorem C9_request_url (a : APIConn) (latMicro lonMicro : Int)
    (excludes : List String) (extendHourly : Bool)
    (hg : String → Except String HTTPResponse)
    (ju : String → Forecast × Option String)
    (hchk : forecastExcludeCheck excludes = true) :
    requestedURLs (ForecastFetch a latMicro lonMicro excludes extendHourly hg ju).trace =
      [baseURL ++ "/" ++ a.apiKey ++ "/" ++ sprintfF latMicro ++ "," ++ sprintfF lonMicro ++
        "?units=" ++ a.Units ++ "&exclude=" ++ String.intercalate "," excludes ++
        (if extendHourly then "&extend=hourly" else "")] := by
  have hq : forecastQuery a latMicro lonMicro excludes extendHourly =
      baseURL ++ "/" ++ a.apiKey ++ "/" ++ sprintfF latMicro ++ "," ++ sprintfF lonMicro ++
        "?units=" ++ a.Units ++ "&exclude=" ++ String.intercalate "," excludes ++
        (if extendHourly then "&extend=hourly" else "") := by
    cases extendHourly <;> simp [forecastQuery, APIConn.Units]
  rw [← hq]
  simp only [ForecastFetch, hchk, if_true]
  cases hhg : hg (forecastQuery a latMicro lonMicro excludes extendHourly) with
  | error e => simp [hhg, requestedURLs]
  | ok r =>
    cases hbody : r.bodyResult with
    | error e => simp [hhg, hbody, requestedURLs]
    | ok body => simp [hhg, hbody, requestedURLs]

/-- Concrete instantiation of `C3_parse_error_partial_result`: a transport
stub always answering a body that the unmarshal stub rejects. -/
theorem C3_parse_error_partial_result_witness :
    ((ForecastFetch (NewConnection "k") 0 0 [] false
        (fun _ => .ok { bodyResult := .ok ("nonsense"), apiCallsHeader := "7" })
        (fun _ => ((default : Forecast), some ("invalid character")))).forecast =
        some (default : Forecast) ∧
      (ForecastFetch (NewConnection "k") 0 0 [] false
        (fun _ => .ok { bodyResult := .ok ("nonsense"), apiCallsHeader := "7" })
        (fun _ => ((default : Forecast), some ("invalid character")))).err =
        some ("invalid character")) ∧
    (∃ r, ForecastAtTimeFetch (NewConnection "k") 0 0 (DateArg.goString ("now")) []
        (fun _ => .ok { bodyResult := .ok ("nonsense"), apiCallsHeader := "7" })
        (fun _ => ((default : Forecast), some ("invalid character"))) = .ok r ∧
      r.forecast = some (default : Forecast) ∧ r.err = some ("invalid character")) := by
  have h := C3_parse_error_partial_result (NewConnection "k") 0 0 [] false
      (DateArg.goString ("now"))
      ("https://api.forecast.io/forecast/k/0.000000,0.000000,now?units=auto&exclude=")
      (fun _ => .ok { bodyResult := .ok ("nonsense"), apiCallsHeader := "7" })
      (fun _ => ((default : Forecast), some ("invalid character")))
      { bodyResult := .ok ("nonsense"), apiCallsHeader := "7" }
      ("nonsense") ("invalid character") rfl rfl
  exact ⟨h.1 (by decide) rfl, h.2 (by decide) rfl rfl⟩

/-- Concrete instantiation of `C6_transport_failure`: a transport stub that
always fails with a connection-refused error. -/
theorem C6_transport_failure_witness :
    ((ForecastFetch (NewConnection "k") 0 0 [] false
        (fun _ => .error ("connection refused"))
        (fun _ => ((default : Forecast), none))).forecast = none ∧
      (ForecastFetch (NewConnection "k") 0 0 [] false
        (fun _ => .error ("connection refused"))
        (fun _ => ((default : Forecast), none))).err = some ("connection refused") ∧
      (ForecastFetch (NewConnection "k") 0 0 [] false
        (fun _ => .error ("connection refused"))
        (fun _ => ((default : Forecast), none))).conn = NewConnection "k" ∧
      Event.unmarshalBody ∉
        (ForecastFetch (NewConnection "k") 0 0 [] false
          (fun _ => .error ("connection refused"))
          (fun _ => ((default : Forecast), none))).trace) ∧
    (∃ r, ForecastAtTimeFetch (NewConnection "k") 0 0 (DateArg.goString ("now")) []
        (fun _ => .error ("connection refused"))
        (fun _ => ((default : Forecast), none)) = .ok r ∧
      r.forecast = none ∧ r.err = some ("connection refused") ∧
      r.conn = NewConnection "k" ∧ Event.unmarshalBody ∉ r.trace) := by
  have h := C6_transport_failure (NewConnection "k") 0 0 [] false
      (DateArg.goString ("now"))
      ("https://api.forecast.io/forecast/k/0.000000,0.000000,now?units=auto&exclude=")
      ("connection refused")
      (fun _ => .error ("connection refused"))
      (fun _ => ((default : Forecast), none))
  exact ⟨h.1 (by decide) rfl, h.2 (by decide) rfl rfl⟩

/-- Concrete instantiation of `C9_request_url`: one excluded block, extended
hourly data, negative longitude. -/
theorem C9_request_url_witness :
    requestedURLs (ForecastFetch (NewConnection "k") 40000000 (-75000000) ["hourly"] true
        (fun _ => .error ("refused"))
        (fun _ => ((default : Forecast), none))).trace =
      ["https://api.forecast.io/forecast/k/40.000000,-75.000000?units=auto&exclude=hourly&extend=hourly"] := by
  have h := C9_request_url (NewConnection "k") 40000000 (-75000000) ["hourly"] true
      (fun _ => .error ("refused"))
      (fun _ => ((default : Forecast), none)) (by decide)
  rw [h]
  rfl

/-- Counterexample to claim C1: the claim says a missing (or non-numeric)
`X-Forecast-API-Calls` header leaves the stored call counter at its prior
value.  In the source, `a.apiCalls, _ = strconv.Atoi(…)` discards the error
and stores `Atoi`'s zero value: a connection whose counter is 42 ends the
fetch with counter 0, not 42. -/
theorem C1_counterexample :
    ({ apiKey := "k", apiCalls := 42, units := "auto" } : APIConn).APICalls = 42 ∧
    (ForecastFetch { apiKey := "k", apiCalls := 42, units := "auto" } 0 0 [] false
        (fun _ => .ok { bodyResult := .ok ("body"), apiCallsHeader := "" })
        (fun _ => ((default : Forecast), none))).conn.APICalls = 0 ∧
    ¬ (ForecastFetch { apiKey := "k", apiCalls := 42, units := "auto" } 0 0 [] false
        (fun _ => .ok { bodyResult := .ok ("body"), apiCallsHeader := "" })
        (fun _ => ((default : Forecast), none))).conn.APICalls = 42 := by
  refine ⟨rfl, rfl, ?_⟩
  intro h
  simp [ForecastFetch, forecastExcludeCheck, goAtoi, atoiParse, APIConn.APICalls] at h

/-- Claim C1 (amended): for every fetch whose HTTP GET and body read
succeed, the stored counter is overwritten with the value component of
`strconv.Atoi` applied to the `X-Forecast-API-Calls` header — the parsed
value `n` when the header is a decimal integer in `int64` range, and `0`,
regardless of the prior counter, when the header is missing or not a
decimal integer. -/
theorem C1_amended_counter_update (a : APIConn) (latMicro lonMicro : Int)
    (excludes : List String) (extendHourly : Bool) (date : DateArg) (q : String)
    (hg : String → Except String HTTPResponse)
    (ju : String → Forecast × Option String)
    (resp : HTTPResponse) (body : String)
    (hbody : resp.bodyResult = .ok body) :
    (forecastExcludeCheck excludes = true →
      hg (forecastQuery a latMicro lonMicro excludes extendHourly) = .ok resp →
      (ForecastFetch a latMicro lonMicro excludes extendHourly hg ju).conn.APICalls =
        (goAtoi resp.apiCallsHeader).1) ∧
    (forecastAtTimeExcludeCheck excludes = true →
      forecastAtTimeQuery a latMicro lonMicro date excludes = .ok q →
      hg q = .ok resp →
      ∃ r, ForecastAtTimeFetch a latMicro lonMicro date excludes hg ju = .ok r ∧
        r.conn.APICalls = (goAtoi resp.apiCallsHeader).1) ∧
    (∀ n : Int, atoiParse resp.apiCallsHeader = some n →
      minInt64 ≤ n → n ≤ maxInt64 → (goAtoi resp.apiCallsHeader).1 = n) ∧
    (atoiParse resp.apiCallsHeader = none → (goAtoi resp.apiCallsHeader).1 = 0) := by
  refine ⟨?_, ?_, ?_, ?_⟩
  · intro hchk hhg
    simp [ForecastFetch, hchk, hhg, hbody, APIConn.APICalls]
  · intro hchk hq hhg
    simp [ForecastAtTimeFetch, hchk, hq, hhg, hbody, APIConn.APICalls]
  · intro n hn hlo hhi
    simp only [goAtoi, hn, maxInt64, minInt64] at *
    rw [if_neg (by omega), if_neg (by omega)]
  · intro hn
    simp [goAtoi, hn]

/-- Concrete instantiation of `C1_amended_counter_update`, applied once
with the header `"42"` and once with the unparsable header `"nope"`. -/
theorem C1_amended_counter_update_witness :
    (ForecastFetch (NewConnection "k") 0 0 [] false
        (fun _ => .ok { bodyResult := .ok ("body"), apiCallsHeader := "42" })
        (fun _ => ((default : Forecast), none))).conn.APICalls = 42 ∧
    (ForecastFetch (NewConnection "k") 0 0 [] false
        (fun _ => .ok { bodyResult := .ok ("body"), apiCallsHeader := "nope" })
        (fun _ => ((default : Forecast), none))).conn.APICalls = 0 := by
  have h1 := C1_amended_counter_update (NewConnection "k") 0 0 [] false
      (DateArg.goString ("now"))
      ("https://api.forecast.io/forecast/k/0.000000,0.000000,now?units=auto&exclude=")
      (fun _ => .ok { bodyResult := .ok ("body"), apiCallsHeader := "42" })
      (fun _ => ((default : Forecast), none))
      { bodyResult := .ok ("body"), apiCallsHeader := "42" } ("body") rfl
  have h2 := C1_amended_counter_update (NewConnection "k") 0 0 [] false
      (DateArg.goString ("now"))
      ("https://api.forecast.io/forecast/k/0.000000,0.000000,now?units=auto&exclude=")
      (fun _ => .ok { bodyResult := .ok ("body"), apiCallsHeader := "nope" })
      (fun _ => ((default : Forecast), none))
      { bodyResult := .ok ("body"), apiCallsHeader := "nope" } ("body") rfl
  constructor
  · exact (h1.1 (by decide) rfl).trans (h1.2.2.1 42 (by decide) (by decide) (by decide))
  · exact (h2.1 (by decide) rfl).trans (h2.2.2.2 (by decide))

/-- Claim C2 concerns the `date interface{}` argument of `ForecastAtTime`.
Evaluating the model at the failing input: for a `date` of dynamic type
`int` (here the Unix time 1368446400), the `case int, int64` branch
executes the single-valued type assertion `date.(int64)`, which panics
before any network request — although the function's own documentation
says an `int` Unix time is accepted.  The same value of dynamic type
`int64` is accepted and formatted into the URL's time segment. -/
theorem C2_int_date_panics :
    ForecastAtTimeFetch (NewConnection "k") 40000000 (-75000000)
        (DateArg.goInt 1368446400) []
        (fun _ => .ok { bodyResult := .ok ("body"), apiCallsHeader := "" })
        (fun _ => ((default : Forecast), none)) =
      .error ("panic: interface conversion: interface is int, not int64") ∧
    (∃ r, ForecastAtTimeFetch (NewConnection "k") 40000000 (-75000000)
        (DateArg.goInt64 1368446400) []
        (fun _ => .ok { bodyResult := .ok ("body"), apiCallsHeader := "" })
        (fun _ => ((default : Forecast), none)) = .ok r ∧
      requestedURLs r.trace =
        ["https://api.forecast.io/forecast/k/40.000000,-75.000000,1368446400?units=auto&exclude="]) := by
  refine ⟨rfl, ⟨_, rfl, ?_⟩⟩
  rfl

/-- Counterexample to claim C10: the claim says each fetch holds the
exclusive lock for its entire duration, including the read of the
configured units while building the URL.  In the source the query —
reading `a.units` and `a.apiKey` — is built before `a.Lock()` is called,
so the `readUnits` event precedes `lockEx` in the trace. -/
theorem C10_counterexample :
    List.indexOf Event.readUnits
        (ForecastFetch (NewConnection "k") 0 0 [] false
          (fun _ => .error ("refused"))
          (fun _ => ((default : Forecast), none))).trace <
      List.indexOf Event.lockEx
        (ForecastFetch (NewConnection "k") 0 0 [] false
          (fun _ => .error ("refused"))
          (fun _ => ((default : Forecast), none))).trace := by
  decide

/-- Claim C10 (amended): `SetUnits` holds the exclusive lock for its whole
duration (first event `lockEx`, last event `unlockEx`); each fetch
operation, however, validates the exclude list and builds the URL —
reading the configured units — before acquiring the lock, and then holds
the lock without interruption from just before the HTTP GET through the
body read, parse and counter update until return. -/
theorem C10_amended_lock_scope (a : APIConn) (latMicro lonMicro : Int)
    (excludes : List String) (extendHourly : Bool) (date : DateArg) (q u : String)
    (hg : String → Except String HTTPResponse)
    (ju : String → Forecast × Option String) :
    (forecastExcludeCheck excludes = true →
      ∃ mid, (ForecastFetch a latMicro lonMicro excludes extendHourly hg ju).trace =
          Event.readUnits :: Event.lockEx ::
            Event.httpGet (forecastQuery a latMicro lonMicro excludes extendHourly) ::
            (mid ++ [Event.unlockEx]) ∧
        Event.lockEx ∉ mid ∧ Event.unlockEx ∉ mid ∧ Event.readUnits ∉ mid) ∧
    ((SetUnits a u).2.2.head? = some Event.lockEx ∧
      (SetUnits a u).2.2.getLast? = some Event.unlockEx ∧
      Event.lockEx ∉ (SetUnits a u).2.2.tail ∧
      Event.unlockEx ∉ (SetUnits a u).2.2.dropLast.tail) ∧
    (forecastAtTimeExcludeCheck excludes = true →
      forecastAtTimeQuery a latMicro lonMicro date excludes = .ok q →
      ∃ r mid, ForecastAtTimeFetch a latMicro lonMicro date excludes hg ju = .ok r ∧
        r.trace = Event.readUnits :: Event.lockEx :: Event.httpGet q ::
          (mid ++ [Event.unlockEx]) ∧
        Event.lockEx ∉ mid ∧ Event.unlockEx ∉ mid ∧ Event.readUnits ∉ mid) := by
  refine ⟨?_, ?_, ?_⟩
  · intro hchk
    simp only [ForecastFetch, hchk, if_true]
    cases hhg : hg (forecastQuery a latMicro lonMicro excludes extendHourly) with
    | error e => exact ⟨[], rfl, by decide, by decide, by decide⟩
    | ok r =>
      obtain ⟨br, hdr⟩ := r
      cases br with
      | error e => exact ⟨[Event.readBody], rfl, by decide, by decide, by decide⟩
      | ok body =>
        exact ⟨[Event.readBody, Event.closeBody, Event.unmarshalBody, Event.setAPICalls],
          rfl, by decide, by decide, by decide⟩
  · by_cases hm : u ∈ unitsSet <;> simp [SetUnits, hm]
  · intro hchk hq
    simp only [ForecastAtTimeFetch, hchk, if_true, hq]
    cases hhg : hg q with
    | error e => exact ⟨_, [], rfl, rfl, by decide, by decide, by decide⟩
    | ok r =>
      obtain ⟨br, hdr⟩ := r
      cases br with
      | error e => exact ⟨_, [Event.readBody], rfl, rfl, by decide, by decide, by decide⟩
      | ok body =>
        exact ⟨_, [Event.readBody, Event.closeBody, Event.unmarshalBody, Event.setAPICalls],
          rfl, rfl, by decide, by decide, by decide⟩

/-- Concrete instantiation of `C10_amended_lock_scope`: both fetch shapes
and a unit write on a fresh connection. -/
theorem C10_amended_lock_scope_witness :
    (∃ mid, (ForecastFetch (NewConnection "k") 0 0 [] false
        (fun _ => .error ("refused"))
        (fun _ => ((default : Forecast), none))).trace =
        Event.readUnits :: Event.lockEx ::
          Event.httpGet (forecastQuery (NewConnection "k") 0 0 [] false) ::
          (mid ++ [Event.unlockEx]) ∧
      Event.lockEx ∉ mid ∧ Event.unlockEx ∉ mid ∧ Event.readUnits ∉ mid) ∧
    ((SetUnits (NewConnection "k") "si").2.2.head? = some Event.lockEx ∧
      (SetUnits (NewConnection "k") "si").2.2.getLast? = some Event.unlockEx ∧
      Event.lockEx ∉ (SetUnits (NewConnection "k") "si").2.2.tail ∧
      Event.unlockEx ∉ (SetUnits (NewConnection "k") "si").2.2.dropLast.tail) ∧
    (∃ r mid, ForecastAtTimeFetch (NewConnection "k") 0 0 (DateArg.goString ("now")) []
        (fun _ => .error ("refused"))
        (fun _ => ((default : Forecast), none)) = .ok r ∧
      r.trace = Event.readUnits :: Event.lockEx ::
        Event.httpGet ("https://api.forecast.io/forecast/k/0.000000,0.000000,now?units=auto&exclude=") ::
        (mid ++ [Event.unlockEx]) ∧
      Event.lockEx ∉ mid ∧ Event.unlockEx ∉ mid ∧ Event.readUnits ∉ mid) := by
  have h := C10_amended_lock_scope (NewConnection "k") 0 0 [] false
      (DateArg.goString ("now"))
      ("https://api.forecast.io/forecast/k/0.000000,0.000000,now?units=auto&exclude=")
      ("si")
      (fun _ => .error ("refused"))
      (fun _ => ((default : Forecast), none))
  exact ⟨h.1 (by decide), h.2.1, h.2.2 (by decide) rfl⟩

/-- Concrete instantiation of `C5_set_units_valid_iff`: the valid value
`"si"` is stored, the invalid value `"zz"` is rejected and the prior
`"auto"` survives. -/
theorem C5_set_units_valid_iff_witness :
    (SetUnits (NewConnection "k") "si").2.1 = none ∧
    (SetUnits (NewConnection "k") "si").1.Units = "si" ∧
    (SetUnits (NewConnection "k") "zz").2.1 = some ("Invalid units requested") ∧
    (SetUnits (NewConnection "k") "zz").1.Units = "auto" := by
  have h1 := C5_set_units_valid_iff (NewConnection "k") "si"
  have h2 := C5_set_units_valid_iff (NewConnection "k") "zz"
  refine ⟨h1.1.mpr (by decide), ?_, h2.2.2 (by decide), ?_⟩
  · rw [h1.2.1, if_pos (by decide)]
  · rw [h2.2.1, if_neg (by decide)]
    rfl
